import Mathlib

/-!
Verification of the Sentry Antivirus core against its specification.

The Python sources are embedded shallowly:

* `sentry/scanner/types.py`      → `ThreatLevel`
* `sentry/scanner/signatures.py` → `SignatureDatabase`, `checkHash`,
  `checkPatterns`, `addHashSignature`, `loadCustomHashes`
* `sentry/scanner/heuristics.py` → `HeurResult`, `scoreLevel`, `analyzeWith`
* `sentry/scanner/engine.py`     → `ScanResult`, `scanFile`, `scanDirectory`
* `sentry/quarantine/manager.py` → `QuarantinedItem`, `QState`,
  `encryptFile`, `quarantineFile`, `restoreFile`, `deletePermanently`,
  `loadDatabase`
* `sentry/protection/realtime.py` → `ProtState`, `stopProtection`

File contents are byte lists (`List Nat`); the file system is a partial map
from paths to contents.  I/O reads that fail in Python (returning `None`
from `_calculate_file_hash` / `_read_file_header`) are modelled by `none`
inputs.  SHA-256, `datetime`, the thread pool and the watchdog observer are
external to the modelled logic: hashes, item ids and date strings enter as
parameters, and the worker pool is modelled by mapping the per-file scan
over the enumerated list (completion order is not part of any claim here).
Python `re.search` on a byte regex is kept abstract as a boolean-valued
search parameter `rs`; literal byte-substring search (`pattern in data`)
is modelled concretely by `listContainsSub`.
-/

namespace Sentry

/-- Byte strings are lists of byte values. -/
abbrev Bytes := List Nat

/-- `ThreatLevel` from `sentry/scanner/types.py`: CLEAN=0 .. CRITICAL=4. -/
inductive ThreatLevel where
  | CLEAN
  | LOW
  | MEDIUM
  | HIGH
  | CRITICAL
deriving DecidableEq, Repr

/-- The `.name` attribute of a `ThreatLevel` enum member. -/
def threatLevelName : ThreatLevel → String
  | ThreatLevel.CLEAN => "CLEAN"
  | ThreatLevel.LOW => "LOW"
  | ThreatLevel.MEDIUM => "MEDIUM"
  | ThreatLevel.HIGH => "HIGH"
  | ThreatLevel.CRITICAL => "CRITICAL"

/-- `ScanResult` dataclass from `sentry/scanner/engine.py` (the `scan_time`
datetime field is omitted: wall-clock time is outside the embedding). -/
structure ScanResult where
  file_path : String
  threat_level : ThreatLevel
  threat_name : Option String
  threat_description : Option String
  file_hash : Option String
  detection_method : String
deriving DecidableEq, Repr

/-- `ScanResult.is_threat`: a result is a threat iff its level is not CLEAN. -/
def ScanResult.is_threat (r : ScanResult) : Bool :=
  r.threat_level ≠ ThreatLevel.CLEAN

/-- The name/level/description triple returned by `check_hash` and
`check_patterns` in `sentry/scanner/signatures.py`. -/
structure SigInfo where
  name : String
  level : ThreatLevel
  description : String
deriving DecidableEq, Repr

/-- One entry of `MALICIOUS_PATTERNS` / `custom_patterns`: a literal byte
pattern or a byte regex, with name, level and description. -/
structure PatternRule where
  name : String
  pattern : Bytes
  is_regex : Bool
  level : ThreatLevel
  description : String
deriving DecidableEq, Repr

/-- ASCII bytes of a string, used to transcribe the Python byte literals. -/
def strBytes (s : String) : Bytes :=
  s.toList.map Char.toNat

/-- `listStartsWith p l` holds when `p` is a leading slice of `l`
(Python `l[:len(p)] == p`). -/
def listStartsWith : Bytes → Bytes → Bool
  | [], _ => true
  | _ :: _, [] => false
  | p :: ps, d :: ds => (p == d) && listStartsWith ps ds

/-- `listContainsSub pat data` is Python's `pat in data` on bytes:
`pat` occurs as a contiguous substring of `data`. -/
def listContainsSub (pat : Bytes) : Bytes → Bool
  | [] => listStartsWith pat []
  | d :: ds => listStartsWith pat (d :: ds) || listContainsSub pat ds

/-- `SignatureDatabase.KNOWN_HASHES` (class attribute, fixed): the two
built-in hash signatures, keys stored in lowercase hex. -/
def KNOWN_HASHES : List (String × SigInfo) :=
  [("275a021bbfb6489e54d471899f7db9d1663fc695ec2fe2a2c4538aabf651fd0f",
    ⟨"EICAR-Test-File", ThreatLevel.LOW,
     "EICAR antivirus test file - not a real threat"⟩),
   ("e3b0c44298fc1c149afbf4c8996fb92427ae41e4649b934ca495991b7852b855",
    ⟨"Empty.File.Suspicion", ThreatLevel.LOW,
     "Empty file - commonly used as placeholder by malware"⟩)]

/-- `SignatureDatabase.MALICIOUS_PATTERNS` (class attribute, fixed): the ten
built-in pattern rules, in source order.  Regex rules carry their pattern
bytes verbatim; their matching is delegated to the abstract `rs` parameter
of `ruleMatches`. -/
def MALICIOUS_PATTERNS : List PatternRule :=
  [⟨"EICAR-Test-Pattern",
    strBytes "X5O!P%@AP[4\\PZX54(P^)7CC)7\x7d$EICAR-STANDARD-ANTIVIRUS-TEST-FILE!$H+H*",
    false, ThreatLevel.LOW, "EICAR standard antivirus test pattern"⟩,
   ⟨"Suspicious.PowerShell.Download",
    strBytes "(?i)(invoke-webrequest|wget|curl).*(-outfile|-o)\\s*[\"\x27]?[\\w:\\\\/.]+\\.exe",
    true, ThreatLevel.MEDIUM, "PowerShell script downloading executable files"⟩,
   ⟨"Suspicious.Base64.Payload",
    strBytes "(?i)powershell.*-e(nc(odedcommand)?)?.*[A-Za-z0-9+/=]\x7b100,\x7d",
    true, ThreatLevel.HIGH, "Encoded PowerShell command - possible obfuscated malware"⟩,
   ⟨"Suspicious.Registry.Run",
    strBytes "(?i)reg\\s+add.*\\\\(run|runonce)",
    true, ThreatLevel.MEDIUM, "Attempts to add registry run key for persistence"⟩,
   ⟨"Suspicious.Disable.Security",
    strBytes "(?i)(disable|stop).*windows\\s*(defender|firewall|security)",
    true, ThreatLevel.HIGH, "Attempts to disable Windows security features"⟩,
   ⟨"Suspicious.Shadow.Delete",
    strBytes "(?i)vssadmin.*delete\\s*shadows",
    true, ThreatLevel.CRITICAL, "Volume shadow copy deletion - ransomware indicator"⟩,
   ⟨"Suspicious.BCDEdit.NoRecovery",
    strBytes "(?i)bcdedit.*/set.*recoveryenabled.*no",
    true, ThreatLevel.CRITICAL, "Disabling recovery mode - ransomware indicator"⟩,
   ⟨"Trojan.Generic.Shellcode",
    [252, 232, 130, 0, 0, 0, 96, 137, 229],
    false, ThreatLevel.CRITICAL, "Common shellcode pattern detected"⟩,
   ⟨"Suspicious.Mimikatz.Strings",
    strBytes "(?i)(sekurlsa|kerberos|wdigest|logonpasswords)",
    true, ThreatLevel.CRITICAL, "Mimikatz-related strings detected - credential theft tool"⟩,
   ⟨"Suspicious.Keylogger.Pattern",
    strBytes "(?i)(getkeystate|getasynckeystate|setwindowshook).*log",
    true, ThreatLevel.HIGH, "Potential keylogger activity detected"⟩]

/-- Per-instance mutable state of `SignatureDatabase`: the custom hash dict
and custom pattern list (`KNOWN_HASHES` / `MALICIOUS_PATTERNS` are fixed
class attributes and live as the top-level constants above). -/
structure SignatureDatabase where
  customHashes : List (String × SigInfo)
  customPatterns : List PatternRule

/-- A fresh database with no custom signatures loaded. -/
def emptyDb : SignatureDatabase := ⟨[], []⟩

/-- Python dict lookup on an association list (first entry with the key). -/
def dfind {α : Type} : List (String × α) → String → Option α
  | [], _ => none
  | p :: rest, k => if p.1 = k then some p.2 else dfind rest k

/-- Python dict insertion: replace the entry in place if the key is present,
otherwise append. -/
def dinsert {α : Type} : List (String × α) → String → α → List (String × α)
  | [], k, v => [(k, v)]
  | p :: rest, k, v => if p.1 = k then (k, v) :: rest else p :: dinsert rest k v

/-- Python `del d[k]`: drop entries with the given key. -/
def dremove {α : Type} : List (String × α) → String → List (String × α)
  | [], _ => []
  | p :: rest, k => if p.1 = k then dremove rest k else p :: dremove rest k

/-- Python `str.lower()` over the character list (the hash strings involved
are ASCII, where Lean's `Char.toLower` agrees with Python). -/
def strToLower (s : String) : String := ⟨s.data.map Char.toLower⟩

/-- `SignatureDatabase.check_hash`: lowercase the query, then look it up in
the built-in table first and the custom table second. -/
def checkHash (db : SignatureDatabase) (file_hash : String) : Option SigInfo :=
  let h := strToLower file_hash
  match dfind KNOWN_HASHES h with
  | some s => some s
  | none => dfind db.customHashes h

/-- One iteration of the `check_patterns` loops: a literal rule matches by
byte-substring search, a regex rule by the abstract regex search `rs`
(Python `re.search`; a rule whose match raises is skipped by the source's
`except: continue`, which the total functions here cannot trigger). -/
def ruleMatches (rs : Bytes → Bytes → Bool) (r : PatternRule) (data : Bytes) : Bool :=
  if r.is_regex then rs r.pattern data else listContainsSub r.pattern data

/-- First rule of the list that matches, returning its info triple. -/
def findFirstRule (rs : Bytes → Bytes → Bool) : List PatternRule → Bytes → Option SigInfo
  | [], _ => none
  | r :: rest, data =>
    if ruleMatches rs r data then some ⟨r.name, r.level, r.description⟩
    else findFirstRule rs rest data

/-- `SignatureDatabase.check_patterns`: scan the built-in rule list in order,
then the custom rule list, returning the first match. -/
def checkPatterns (db : SignatureDatabase) (rs : Bytes → Bytes → Bool)
    (data : Bytes) : Option SigInfo :=
  match findFirstRule rs MALICIOUS_PATTERNS data with
  | some s => some s
  | none => findFirstRule rs db.customPatterns data

/-- `SignatureDatabase.add_hash_signature`: stores the hash lowercased. -/
def addHashSignature (db : SignatureDatabase) (file_hash : String)
    (info : SigInfo) : SignatureDatabase :=
  { db with customHashes := dinsert db.customHashes (strToLower file_hash) info }

/-- Hash half of `SignatureDatabase._load_custom_signatures`: each parsed
entry is stored under its hash string verbatim (no case normalisation). -/
def loadCustomHashes (entries : List (String × SigInfo))
    (db : SignatureDatabase) : SignatureDatabase :=
  { db with customHashes := entries.foldl (fun m e => dinsert m e.1 e.2) db.customHashes }

/-- Pattern half of `SignatureDatabase._load_custom_signatures`: parsed rules
are appended to the custom pattern list. -/
def loadCustomPatterns (entries : List PatternRule)
    (db : SignatureDatabase) : SignatureDatabase :=
  { db with customPatterns := db.customPatterns ++ entries }

/-- The result dict of `HeuristicAnalyzer.analyze`. -/
structure HeurResult where
  is_suspicious : Bool
  score : Nat
  level : ThreatLevel
  name : Option String
  description : String
  findings : List String
deriving DecidableEq, Repr

/-- The score-to-level if-chain at the end of `HeuristicAnalyzer.analyze`. -/
def scoreLevel (score : Nat) : ThreatLevel :=
  if 80 ≤ score then ThreatLevel.CRITICAL
  else if 60 ≤ score then ThreatLevel.HIGH
  else if 40 ≤ score then ThreatLevel.MEDIUM
  else if 20 ≤ score then ThreatLevel.LOW
  else ThreatLevel.CLEAN

/-- `HeuristicAnalyzer.__init__` sets `score_threshold = 50`. -/
def initialScoreThreshold : Nat := 50

/-- `HeuristicAnalyzer.analyze`.  The five additive signal checks
(extension/content mismatch, PE analysis, entropy, suspicious strings,
script checks) accumulate `score` and `findings`; they are abstracted here
as the `signals` parameter, returning the accumulated pair for a given
path and header, and every theorem about `analyzeWith` quantifies over
`signals`.  The tail of the method — level mapping, suspicion gating,
synthetic name and description join — is transcribed exactly. -/
def analyzeWith (signals : String → Bytes → Nat × List String)
    (threshold : Nat) (file_path : String) (header : Bytes) : HeurResult :=
  let s := (signals file_path header).1
  let found := (signals file_path header).2
  { is_suspicious := decide (threshold ≤ s),
    score := s,
    level := scoreLevel s,
    name := if threshold ≤ s then some "Heuristic.Suspicious.Gen" else none,
    description := if found = [] then "No suspicious indicators"
                   else String.intercalate "; " found,
    findings := found }

/-- The hash stage of `ScanEngine._scan_file`: with a truthy `file_hash`
(present and nonempty), consult the signature hash table. -/
def hashStage (db : SignatureDatabase) : Option String → Option SigInfo
  | none => none
  | some h => if h = "" then none else checkHash db h

/-- A clean `ScanResult` as built by `_scan_file` fall-through (dataclass
defaults: no name, no description, `detection_method = "signature"`). -/
def cleanResult (path : String) (file_hash : Option String) : ScanResult :=
  { file_path := path, threat_level := ThreatLevel.CLEAN, threat_name := none,
    threat_description := none, file_hash := file_hash,
    detection_method := "signature" }

/-- `ScanEngine._scan_file` on an individual file.  `file_hash` and `header`
are the outcomes of `_calculate_file_hash` / `_read_file_header`; each is
`none` when the corresponding read raised an I/O error in Python.  A header
read that returns empty bytes fails the Python `if header:` truthiness test
exactly like `None` does.  `a` is the heuristic analyzer's `analyze`. -/
def scanFile (db : SignatureDatabase) (rs : Bytes → Bytes → Bool)
    (a : String → Bytes → HeurResult) (path : String)
    (file_hash : Option String) (header : Option Bytes) : ScanResult :=
  match hashStage db file_hash with
  | some sig =>
      { file_path := path, threat_level := sig.level, threat_name := some sig.name,
        threat_description := some sig.description, file_hash := file_hash,
        detection_method := "signature" }
  | none =>
    match header with
    | none => cleanResult path file_hash
    | some hd =>
      if hd = [] then cleanResult path file_hash
      else
        match checkPatterns db rs hd with
        | some pat =>
            { file_path := path, threat_level := pat.level,
              threat_name := some pat.name,
              threat_description := some pat.description, file_hash := file_hash,
              detection_method := "pattern" }
        | none =>
          let hr := a path hd
          if hr.is_suspicious then
            { file_path := path, threat_level := hr.level, threat_name := hr.name,
              threat_description := some hr.description, file_hash := file_hash,
              detection_method := "heuristic" }
          else cleanResult path file_hash

/-- The per-file body of `ScanEngine.scan_directory`: every enumerated file
is scanned and contributes one result.  Each file is given with its two read
outcomes; the worker pool and progress lock are concurrency machinery
outside the claims settled here. -/
def scanDirectory (db : SignatureDatabase) (rs : Bytes → Bytes → Bool)
    (a : String → Bytes → HeurResult)
    (files : List (String × Option String × Option Bytes)) : List ScanResult :=
  files.map (fun f => scanFile db rs a f.1 f.2.1 f.2.2)

/-- The file system: a partial map from paths to byte contents. -/
abbrev FS := String → Option Bytes

/-- Read a path. -/
def fsRead (fs : FS) (p : String) : Option Bytes := fs p

/-- Write (create or overwrite) a path. -/
def fsWrite (fs : FS) (p : String) (d : Bytes) : FS :=
  fun q => if q = p then some d else fs q

/-- `os.remove`. -/
def fsRemove (fs : FS) (p : String) : FS :=
  fun q => if q = p then none else fs q

/-- `QuarantinedItem` dataclass from `sentry/quarantine/manager.py`.
`threat_name` / `threat_description` come from an optional `ScanResult`
whose corresponding fields are themselves optional, hence `Option String`. -/
structure QuarantinedItem where
  id : String
  original_path : String
  quarantine_path : String
  file_hash : String
  file_size : Nat
  threat_name : Option String
  threat_level : String
  threat_description : Option String
  quarantine_date : String
  detection_method : String
deriving DecidableEq, Repr

/-- State touched by `QuarantineManager`: the file system, the in-memory
`_items` dict, and the journal (the `items` array most recently written by
`_save_database`). -/
structure QState where
  fs : FS
  items : List (String × QuarantinedItem)
  journal : List QuarantinedItem

/-- The XOR key `b'SENTRY_QUARANTINE_KEY_2024'` of `_encrypt_file`. -/
def xorKey : Bytes := strBytes "SENTRY_QUARANTINE_KEY_2024"

/-- `key[i % len(key)]`. -/
def keyByte (i : Nat) : Nat := xorKey.getD (i % xorKey.length) 0

/-- The position-dependent XOR stream transform shared by `_encrypt_file`
and `_decrypt_file`, starting at byte offset `i`. -/
def xorWithKey : Nat → Bytes → Bytes
  | _, [] => []
  | i, b :: rest => (b ^^^ keyByte i) :: xorWithKey (i + 1) rest

/-- The magic header `b'SENTRY_Q1'` written in front of encrypted blobs. -/
def magicBytes : Bytes := strBytes "SENTRY_Q1"

/-- `os.path.join`, with a fixed separator. -/
def pathJoin (a b : String) : String := a ++ "/" ++ b

/-- The quarantine blob path built in `quarantine_file`:
`quarantine_dir/date_folder/item_id.quarantine`. -/
def qpathOf (qdir dateFolder itemId : String) : String :=
  pathJoin (pathJoin qdir dateFolder) (itemId ++ ".quarantine")

/-- `QuarantineManager._encrypt_file`: read the source, XOR it with the key
and write magic header plus ciphertext to `dest`.  `writeOk` tells which
destination paths are writable; an unwritable destination is the I/O error
that makes the Python function return `False`. -/
def encryptFile (writeOk : String → Bool) (fs : FS) (src dest : String) : Option FS :=
  match fsRead fs src with
  | none => none
  | some data =>
    if writeOk dest then some (fsWrite fs dest (magicBytes ++ xorWithKey 0 data))
    else none

/-- The `QuarantinedItem` record literal built inside `quarantine_file`
(factored out so theorems can name it). -/
def quarantineItemOf (hashFn : Bytes → String)
    (itemId qpath nowIso file_path : String) (data : Bytes)
    (scanRes : Option ScanResult) : QuarantinedItem :=
  { id := itemId, original_path := file_path, quarantine_path := qpath,
    file_hash := hashFn data, file_size := data.length,
    threat_name := match scanRes with
      | some r => r.threat_name
      | none => some "Unknown Threat",
    threat_level := match scanRes with
      | some r => threatLevelName r.threat_level
      | none => "UNKNOWN",
    threat_description := match scanRes with
      | some r => r.threat_description
      | none => some "",
    quarantine_date := nowIso,
    detection_method := match scanRes with
      | some r => r.detection_method
      | none => "manual" }

/-- `QuarantineManager.quarantine_file`.  `hashFn` stands for SHA-256 of the
original bytes, `itemId` for `_generate_id`'s digest, `dateFolder`/`nowIso`
for the two `datetime.now()` renderings — all computed outside the modelled
logic.  On encryption failure nothing is touched and no item is returned;
on success the original is deleted (the chmod-retry on `PermissionError`
is collapsed into one deletion step), the item is recorded and the journal
saved. -/
def quarantineFile (qdir : String) (writeOk : String → Bool)
    (hashFn : Bytes → String) (itemId dateFolder nowIso : String)
    (st : QState) (file_path : String) (scanRes : Option ScanResult) :
    Option QuarantinedItem × QState :=
  match fsRead st.fs file_path with
  | none => (none, st)
  | some data =>
    let qpath := qpathOf qdir dateFolder itemId
    match encryptFile writeOk st.fs file_path qpath with
    | none => (none, st)
    | some fs1 =>
      let fs2 := fsRemove fs1 file_path
      let item := quarantineItemOf hashFn itemId qpath nowIso file_path data scanRes
      let items2 := dinsert st.items itemId item
      (some item, { fs := fs2, items := items2, journal := items2.map (fun p => p.2) })

/-- `QuarantineManager.restore_file`.  Unknown id ⇒ `False`.  Missing blob ⇒
the orphaned record is purged, the journal saved, and `False` returned.
Otherwise `_decrypt_file` checks the 9-byte magic header before anything is
written: a wrong header (or an unwritable destination) returns `False` with
the state untouched; on success the plaintext is written to the original
path (or the override), the blob removed, the record dropped and the
journal saved. -/
def restoreFile (writeOk : String → Bool) (st : QState) (item_id : String)
    (restore_path : Option String) : Bool × QState :=
  match dfind st.items item_id with
  | none => (false, st)
  | some item =>
    match fsRead st.fs item.quarantine_path with
    | none =>
      let items2 := dremove st.items item_id
      (false, { st with items := items2, journal := items2.map (fun p => p.2) })
    | some blob =>
      let dest := restore_path.getD item.original_path
      if listStartsWith magicBytes blob then
        if writeOk dest then
          let fs2 := fsRemove (fsWrite st.fs dest (xorWithKey 0 (blob.drop 9)))
                       item.quarantine_path
          let items2 := dremove st.items item_id
          (true, { fs := fs2, items := items2, journal := items2.map (fun p => p.2) })
        else (false, st)
      else (false, st)

/-- `QuarantineManager.delete_permanently`: unknown id ⇒ `False` without
touching anything; otherwise the blob (if present) and the record are
removed and the journal saved. -/
def deletePermanently (st : QState) (item_id : String) : Bool × QState :=
  match dfind st.items item_id with
  | none => (false, st)
  | some item =>
    let fs2 := fsRemove st.fs item.quarantine_path
    let items2 := dremove st.items item_id
    (true, { fs := fs2, items := items2, journal := items2.map (fun p => p.2) })

/-- `QuarantineManager.get_all_items`: the values of the `_items` dict. -/
def getAllItems (st : QState) : List QuarantinedItem :=
  st.items.map (fun p => p.2)

/-- A concrete quarantined item used by witnesses and counterexamples. -/
def sampleItem : QuarantinedItem :=
  ⟨"x1", "C:/doc.exe", "Q/x1.quarantine", "h", 1, some "T", "HIGH",
   some "d", "2024-01-01", "pattern"⟩

/-- `QuarantineManager._load_database`: every parsed journal entry is put
into `_items` keyed by its id.  The source consults only the JSON document —
note that the file system is not even an argument here. -/
def loadDatabase (journalItems : List QuarantinedItem) :
    List (String × QuarantinedItem) :=
  journalItems.foldl (fun m it => dinsert m it.id it) []

/-- `ProtectionStatus` enum from `sentry/protection/realtime.py`. -/
inductive ProtectionStatus where
  | DISABLED
  | ENABLED
  | PAUSED
  | ERROR
deriving DecidableEq, Repr

/-- `ProtectionEvent` (timestamp and embedded scan result omitted: the
claims settled here concern whether an event is appended at all). -/
structure ProtectionEvent where
  event_type : String
  file_path : String
  action_taken : String
deriving DecidableEq, Repr

/-- State touched by `RealtimeProtection.stop`: the status flag, the watched
path set and the append-only event log (threads and the watchdog observer
are joined and dropped by `stop`; they carry no state the claims need). -/
structure ProtState where
  status : ProtectionStatus
  watched_paths : List String
  events : List ProtectionEvent
deriving DecidableEq, Repr

/-- `RealtimeProtection.stop`: an early return when already `DISABLED`;
otherwise clear the watched paths, flip the status and append the
`protection_stopped` event. -/
def stopProtection (st : ProtState) : ProtState :=
  if st.status = ProtectionStatus.DISABLED then st
  else
    { status := ProtectionStatus.DISABLED, watched_paths := [],
      events := st.events ++
        [⟨"protection_stopped", "", "Real-time protection disabled"⟩] }

/-! Helper lemmas about the dictionary, byte and rule-list operations. -/

theorem dfind_dinsert_self {α : Type} (m : List (String × α)) (k : String) (v : α) :
    dfind (dinsert m k v) k = some v := by
  induction m with
  | nil => simp [dinsert, dfind]
  | cons p rest ih =>
    by_cases h : p.1 = k
    · simp [dinsert, dfind, h]
    · simp [dinsert, dfind, h, ih]

theorem dfind_dinsert_ne {α : Type} (m : List (String × α)) (k k' : String) (v : α)
    (h : k' ≠ k) : dfind (dinsert m k' v) k = dfind m k := by
  induction m with
  | nil => simp [dinsert, dfind, h]
  | cons p rest ih =>
    by_cases hp : p.1 = k'
    · simp [dinsert, dfind, hp, h]
    · simp only [dinsert, hp, if_false]
      by_cases hk : p.1 = k
      · simp [dfind, hk]
      · simp [dfind, hk, ih]

theorem dfind_dremove_self {α : Type} (m : List (String × α)) (k : String) :
    dfind (dremove m k) k = none := by
  induction m with
  | nil => simp [dremove, dfind]
  | cons p rest ih =>
    by_cases h : p.1 = k
    · simp [dremove, h, ih]
    · simp [dremove, dfind, h, ih]

theorem mem_dremove {α : Type} (m : List (String × α)) (k : String)
    (p : String × α) (hp : p ∈ dremove m k) : p ∈ m ∧ p.1 ≠ k := by
  induction m with
  | nil => simp [dremove] at hp
  | cons q rest ih =>
    by_cases h : q.1 = k
    · simp only [dremove, h, if_true] at hp
      rcases ih hp with ⟨h1, h2⟩
      exact ⟨List.mem_cons_of_mem _ h1, h2⟩
    · simp only [dremove, h, if_false, List.mem_cons] at hp
      rcases hp with rfl | hp
      · exact ⟨List.mem_cons_self _ _, h⟩
      · rcases ih hp with ⟨h1, h2⟩
        exact ⟨List.mem_cons_of_mem _ h1, h2⟩

theorem mem_dinsert {α : Type} (m : List (String × α)) (k : String) (v : α)
    (p : String × α) (hp : p ∈ dinsert m k v) : p = (k, v) ∨ p ∈ m := by
  induction m with
  | nil => simpa [dinsert] using hp
  | cons q rest ih =>
    by_cases h : q.1 = k
    · simp only [dinsert, h, if_true, List.mem_cons] at hp
      rcases hp with rfl | hp
      · exact Or.inl rfl
      · exact Or.inr (List.mem_cons_of_mem _ hp)
    · simp only [dinsert, h, if_false, List.mem_cons] at hp
      rcases hp with rfl | hp
      · exact Or.inr (List.mem_cons_self _ _)
      · rcases ih hp with h1 | h1
        · exact Or.inl h1
        · exact Or.inr (List.mem_cons_of_mem _ h1)

theorem listStartsWith_append (p l : Bytes) : listStartsWith p (p ++ l) = true := by
  induction p with
  | nil => rfl
  | cons b rest ih => simp [listStartsWith, ih]

theorem magicBytes_length : magicBytes.length = 9 := by decide

theorem xorWithKey_involution (l : Bytes) (i : Nat) :
    xorWithKey i (xorWithKey i l) = l := by
  induction l generalizing i with
  | nil => rfl
  | cons b rest ih =>
    simp only [xorWithKey, ih]
    rw [Nat.xor_assoc, Nat.xor_self, Nat.xor_zero]

theorem findFirstRule_skip (rs : Bytes → Bytes → Bool) (data : Bytes)
    (pre rest : List PatternRule)
    (h : ∀ r ∈ pre, ruleMatches rs r data = false) :
    findFirstRule rs (pre ++ rest) data = findFirstRule rs rest data := by
  induction pre with
  | nil => rfl
  | cons r tail ih =>
    have hr : ruleMatches rs r data = false := h r (List.mem_cons_self _ _)
    simp only [List.cons_append, findFirstRule, hr, if_false]
    exact ih (fun r2 h2 => h r2 (List.mem_cons_of_mem _ h2))

theorem findFirstRule_append (rs : Bytes → Bytes → Bool) (data : Bytes)
    (l1 l2 : List PatternRule) :
    findFirstRule rs (l1 ++ l2) data =
      match findFirstRule rs l1 data with
      | some s => some s
      | none => findFirstRule rs l2 data := by
  induction l1 with
  | nil => rfl
  | cons r tail ih =>
    by_cases hr : ruleMatches rs r data
    · simp [findFirstRule, hr]
    · simp [findFirstRule, hr, ih]

theorem loadDatabase_foldl_notmem (m : List (String × QuarantinedItem))
    (its : List QuarantinedItem) (k : String)
    (h : ∀ it ∈ its, it.id ≠ k) :
    dfind (its.foldl (fun m it => dinsert m it.id it) m) k = dfind m k := by
  induction its generalizing m with
  | nil => rfl
  | cons it tail ih =>
    have hne : it.id ≠ k := h it (List.mem_cons_self _ _)
    simp only [List.foldl_cons]
    rw [ih (dinsert m it.id it) (fun it2 h2 => h it2 (List.mem_cons_of_mem _ h2))]
    exact dfind_dinsert_ne m k it.id it hne

theorem checkHash_builtin_hit (db : SignatureDatabase) (q : String) (info : SigInfo)
    (h : dfind KNOWN_HASHES (strToLower q) = some info) : checkHash db q = some info := by
  simp only [checkHash, h]

theorem checkHash_builtin_miss (db : SignatureDatabase) (q : String)
    (h : dfind KNOWN_HASHES (strToLower q) = none) :
    checkHash db q = dfind db.customHashes (strToLower q) := by
  simp only [checkHash, h]

/-! Claim theorems. -/

/-- C1: when the content hash matches no hash signature and the header
matches a pattern rule, `_scan_file` returns a `ScanResult` with
`detection_method = "pattern"` carrying the matching rule's level, name and
description, and the result does not depend on the heuristic analyzer at
all (heuristic scoring is never invoked): the pipeline is hash lookup, then
pattern matching, then heuristics, first hit wins. -/
theorem scan_pattern_before_heuristics
    (db : SignatureDatabase) (rs : Bytes → Bytes → Bool) (path : String)
    (file_hash : Option String) (hd : Bytes) (sig : SigInfo)
    (hhash : hashStage db file_hash = none)
    (hne : hd ≠ [])
    (hpat : checkPatterns db rs hd = some sig) :
    ∀ a : String → Bytes → HeurResult,
      scanFile db rs a path file_hash (some hd) =
        { file_path := path, threat_level := sig.level,
          threat_name := some sig.name,
          threat_description := some sig.description, file_hash := file_hash,
          detection_method := "pattern" } := by
  intro a
  simp [scanFile, hhash, hne, hpat]

/-- Witness for C1: an EICAR-bearing header with no hash available is
flagged by the first built-in pattern rule, under an arbitrary analyzer. -/
theorem scan_pattern_before_heuristics_witness :
    hashStage emptyDb none = none ∧
    checkPatterns emptyDb (fun _ _ => false)
      (strBytes "X5O!P%@AP[4\\PZX54(P^)7CC)7\x7d$EICAR-STANDARD-ANTIVIRUS-TEST-FILE!$H+H*") =
      some ⟨"EICAR-Test-Pattern", ThreatLevel.LOW,
            "EICAR standard antivirus test pattern"⟩ ∧
    scanFile emptyDb (fun _ _ => false)
      (fun _ _ => ⟨true, 100, ThreatLevel.CRITICAL, some "Heuristic.Suspicious.Gen", "", []⟩)
      "eicar.txt" none
      (some (strBytes "X5O!P%@AP[4\\PZX54(P^)7CC)7\x7d$EICAR-STANDARD-ANTIVIRUS-TEST-FILE!$H+H*")) =
      { file_path := "eicar.txt", threat_level := ThreatLevel.LOW,
        threat_name := some "EICAR-Test-Pattern",
        threat_description := some "EICAR standard antivirus test pattern",
        file_hash := none, detection_method := "pattern" } :=
  ⟨rfl, by decide,
   scan_pattern_before_heuristics emptyDb (fun _ _ => false) "eicar.txt" none _
     ⟨"EICAR-Test-Pattern", ThreatLevel.LOW, "EICAR standard antivirus test pattern"⟩
     rfl (by decide) (by decide) _⟩

/-- C2: `HeuristicAnalyzer.analyze` maps its additive score to a level by
the 80/60/40/20 thresholds, sets `is_suspicious` exactly when the score
reaches the configured threshold (initialised to 50), and `_scan_file`
surfaces a heuristic detection — method `"heuristic"` with the synthetic
name `Heuristic.Suspicious.Gen` — precisely when `is_suspicious` holds;
otherwise the finding is discarded and a plain clean result returned. -/
theorem heuristic_threshold_gating
    (signals : String → Bytes → Nat × List String) (threshold : Nat)
    (db : SignatureDatabase) (rs : Bytes → Bytes → Bool) (path : String)
    (file_hash : Option String) (hd : Bytes)
    (hhash : hashStage db file_hash = none)
    (hne : hd ≠ [])
    (hpat : checkPatterns db rs hd = none) :
    ∀ r, r = analyzeWith signals threshold path hd →
      ((80 ≤ r.score → r.level = ThreatLevel.CRITICAL) ∧
       (60 ≤ r.score ∧ r.score < 80 → r.level = ThreatLevel.HIGH) ∧
       (40 ≤ r.score ∧ r.score < 60 → r.level = ThreatLevel.MEDIUM) ∧
       (20 ≤ r.score ∧ r.score < 40 → r.level = ThreatLevel.LOW) ∧
       (r.score < 20 → r.level = ThreatLevel.CLEAN)) ∧
      (r.is_suspicious = true ↔ threshold ≤ r.score) ∧
      initialScoreThreshold = 50 ∧
      (r.is_suspicious = true →
        scanFile db rs (analyzeWith signals threshold) path file_hash (some hd) =
          { file_path := path, threat_level := r.level,
            threat_name := some "Heuristic.Suspicious.Gen",
            threat_description := some r.description, file_hash := file_hash,
            detection_method := "heuristic" }) ∧
      (r.is_suspicious = false →
        scanFile db rs (analyzeWith signals threshold) path file_hash (some hd) =
          cleanResult path file_hash) := by
  intro r hr
  subst hr
  refine ⟨⟨?_, ?_, ?_, ?_, ?_⟩, ?_, rfl, ?_, ?_⟩
  · intro h
    simp only [analyzeWith] at h ⊢
    simp only [scoreLevel]
    rw [if_pos h]
  · rintro ⟨h1, h2⟩
    simp only [analyzeWith] at h1 h2 ⊢
    simp only [scoreLevel]
    rw [if_neg (by omega), if_pos h1]
  · rintro ⟨h1, h2⟩
    simp only [analyzeWith] at h1 h2 ⊢
    simp only [scoreLevel]
    rw [if_neg (by omega), if_neg (by omega), if_pos h1]
  · rintro ⟨h1, h2⟩
    simp only [analyzeWith] at h1 h2 ⊢
    simp only [scoreLevel]
    rw [if_neg (by omega), if_neg (by omega), if_neg (by omega), if_pos h1]
  · intro h
    simp only [analyzeWith] at h ⊢
    simp only [scoreLevel]
    rw [if_neg (by omega), if_neg (by omega), if_neg (by omega), if_neg (by omega)]
  · simp [analyzeWith]
  · intro hsus
    have hts : threshold ≤ (signals path hd).1 := by
      simpa [analyzeWith] using hsus
    simp [scanFile, hhash, hne, hpat, analyzeWith, hts]
  · intro hsus
    simp only [analyzeWith] at hsus
    simp [scanFile, hhash, hne, hpat, analyzeWith, hsus]

/-- Witness for C2: with signal score 60 and threshold 50 the finding is
suspicious, mapped to HIGH and surfaced by the engine; with threshold 70
the same score is discarded and the result is clean. -/
theorem heuristic_threshold_gating_witness :
    (analyzeWith (fun _ _ => (60, ["probe"])) 50 "a.bin" [0]).is_suspicious = true ∧
    (analyzeWith (fun _ _ => (60, ["probe"])) 50 "a.bin" [0]).level = ThreatLevel.HIGH ∧
    scanFile emptyDb (fun _ _ => false) (analyzeWith (fun _ _ => (60, ["probe"])) 50)
      "a.bin" none (some [0]) =
      { file_path := "a.bin", threat_level := ThreatLevel.HIGH,
        threat_name := some "Heuristic.Suspicious.Gen",
        threat_description := some "probe", file_hash := none,
        detection_method := "heuristic" } ∧
    scanFile emptyDb (fun _ _ => false) (analyzeWith (fun _ _ => (60, ["probe"])) 70)
      "a.bin" none (some [0]) = cleanResult "a.bin" none := by
  have h50 := heuristic_threshold_gating (fun _ _ => (60, ["probe"])) 50 emptyDb
    (fun _ _ => false) "a.bin" none [0] rfl (by decide) (by decide) _ rfl
  have h70 := heuristic_threshold_gating (fun _ _ => (60, ["probe"])) 70 emptyDb
    (fun _ _ => false) "a.bin" none [0] rfl (by decide) (by decide) _ rfl
  refine ⟨by decide, ?_, ?_, ?_⟩
  · exact (h50.1).2.1 (by decide)
  · have := h50.2.2.2.1 (by decide)
    simpa using this
  · exact h70.2.2.2.2 (by decide)

/-- C8: `check_patterns` searches the built-in rule list in its fixed order
and the custom rule list after it; the first matching rule's name, level
and description are returned.  `check_hash` likewise consults the built-in
hash table before the custom one. -/
theorem signature_search_order
    (db : SignatureDatabase) (rs : Bytes → Bytes → Bool) (data : Bytes) :
    (checkPatterns db rs data =
       findFirstRule rs (MALICIOUS_PATTERNS ++ db.customPatterns) data) ∧
    (∀ pre r post,
       MALICIOUS_PATTERNS ++ db.customPatterns = pre ++ r :: post →
       (∀ r2 ∈ pre, ruleMatches rs r2 data = false) →
       ruleMatches rs r data = true →
       checkPatterns db rs data = some ⟨r.name, r.level, r.description⟩) ∧
    (∀ q info, dfind KNOWN_HASHES (strToLower q) = some info →
       checkHash db q = some info) ∧
    (∀ q, dfind KNOWN_HASHES (strToLower q) = none →
       checkHash db q = dfind db.customHashes (strToLower q)) := by
  have happ : checkPatterns db rs data =
      findFirstRule rs (MALICIOUS_PATTERNS ++ db.customPatterns) data := by
    rw [findFirstRule_append]
    rfl
  refine ⟨happ, ?_, ?_, ?_⟩
  · intro pre r post heq hpre hr
    rw [happ, heq, findFirstRule_skip rs data pre (r :: post) hpre]
    simp [findFirstRule, hr]
  · intro q info h
    exact checkHash_builtin_hit db q info h
  · intro q h
    exact checkHash_builtin_miss db q h

/-- Witness for C8: a match-everything custom rule placed after the ten
built-ins fires only after all of them fail on the probe data, and the
built-in EICAR hash wins over a conflicting custom entry for the same
hash. -/
theorem signature_search_order_witness :
    checkPatterns ⟨[], [⟨"Match.All", [], false, ThreatLevel.LOW, "catch-all"⟩]⟩
      (fun _ _ => false) [1] = some ⟨"Match.All", ThreatLevel.LOW, "catch-all"⟩ ∧
    checkHash
      ⟨[("275a021bbfb6489e54d471899f7db9d1663fc695ec2fe2a2c4538aabf651fd0f",
         ⟨"Shadow.Custom", ThreatLevel.HIGH, "conflicting custom entry"⟩)], []⟩
      "275A021BBFB6489E54D471899F7DB9D1663FC695EC2FE2A2C4538AABF651FD0F" =
      some ⟨"EICAR-Test-File", ThreatLevel.LOW,
            "EICAR antivirus test file - not a real threat"⟩ := by
  have h := signature_search_order
    ⟨[], [⟨"Match.All", [], false, ThreatLevel.LOW, "catch-all"⟩]⟩
    (fun _ _ => false) [1]
  refine ⟨?_, ?_⟩
  · exact h.2.1 MALICIOUS_PATTERNS ⟨"Match.All", [], false, ThreatLevel.LOW, "catch-all"⟩
      [] rfl (by decide) (by decide)
  · exact (signature_search_order
      ⟨[("275a021bbfb6489e54d471899f7db9d1663fc695ec2fe2a2c4538aabf651fd0f",
         ⟨"Shadow.Custom", ThreatLevel.HIGH, "conflicting custom entry"⟩)], []⟩
      (fun _ _ => false) []).2.2.1
      "275A021BBFB6489E54D471899F7DB9D1663FC695EC2FE2A2C4538AABF651FD0F"
      ⟨"EICAR-Test-File", ThreatLevel.LOW,
       "EICAR antivirus test file - not a real threat"⟩
      (by decide)

/-- C6 counterexample: a hash signature loaded from a custom signatures
file is stored verbatim.  Stored under `"AB"`, the entry is present in the
custom table, yet `check_hash` — which lowercases every query — returns
nothing for the query `"ab"` differing from the stored hash only in letter
case, and even for the verbatim query `"AB"` itself. -/
theorem custom_file_hash_uppercase_unreachable :
    dfind (loadCustomHashes
        [("AB", ⟨"Custom.Threat", ThreatLevel.HIGH, "custom entry"⟩)]
        emptyDb).customHashes "AB" =
      some ⟨"Custom.Threat", ThreatLevel.HIGH, "custom entry"⟩ ∧
    strToLower "ab" = strToLower "AB" ∧
    "ab" ≠ "AB" ∧
    checkHash (loadCustomHashes
      [("AB", ⟨"Custom.Threat", ThreatLevel.HIGH, "custom entry"⟩)]
      emptyDb) "ab" = none ∧
    checkHash (loadCustomHashes
      [("AB", ⟨"Custom.Threat", ThreatLevel.HIGH, "custom entry"⟩)]
      emptyDb) "AB" = none := by
  refine ⟨by decide, by decide, by decide, by decide, by decide⟩

/-- C6 as amended: `check_hash` lowercases the query and then looks it up
exactly, built-in table first.  Case-insensitive lookup therefore holds for
the built-in entries and for entries stored through `add_hash_signature`
(which lowercases the stored hash; on a lowercase collision with a built-in
hash the built-in entry wins), while an entry loaded from a custom
signatures file is stored verbatim and is found only when the lowercased
query equals the stored hash string exactly. -/
theorem hash_lookup_case_normalisation
    (db : SignatureDatabase) (q h : String) (info : SigInfo) :
    (dfind KNOWN_HASHES (strToLower q) = some info → checkHash db q = some info) ∧
    (strToLower q = strToLower h →
       dfind KNOWN_HASHES (strToLower q) = none →
       checkHash (addHashSignature db h info) q = some info) ∧
    (dfind KNOWN_HASHES (strToLower q) = none →
       checkHash db q = dfind db.customHashes (strToLower q)) := by
  refine ⟨checkHash_builtin_hit db q info, ?_, checkHash_builtin_miss db q⟩
  intro hlow hmiss
  rw [checkHash_builtin_miss _ q hmiss]
  simp only [addHashSignature]
  rw [hlow]
  exact dfind_dinsert_self db.customHashes (strToLower h) info

/-- Witness for C6's amended statement: a hash added via
`add_hash_signature` under mixed case is found by a query of different
case. -/
theorem hash_lookup_case_normalisation_witness :
    strToLower "aB" = strToLower "Ab" ∧
    dfind KNOWN_HASHES (strToLower "aB") = none ∧
    checkHash (addHashSignature emptyDb "Ab"
        ⟨"Added.Threat", ThreatLevel.MEDIUM, "added entry"⟩) "aB" =
      some ⟨"Added.Threat", ThreatLevel.MEDIUM, "added entry"⟩ :=
  ⟨by decide, by decide,
   (hash_lookup_case_normalisation emptyDb "aB" "Ab"
      ⟨"Added.Threat", ThreatLevel.MEDIUM, "added entry"⟩).2.1
     (by decide) (by decide)⟩

/-- C7 counterexample: a file whose hash and header reads both fail with an
I/O error (permission denied, vanished file — both helpers return `None`)
produces a CLEAN result whose `threat_description` is `none`: no error
annotation is attached, contrary to the claim. -/
theorem unreadable_file_result_unannotated :
    scanFile emptyDb (fun _ _ => false)
      (analyzeWith (fun _ _ => (0, [])) initialScoreThreshold)
      "C:/locked/report.exe" none none =
      { file_path := "C:/locked/report.exe", threat_level := ThreatLevel.CLEAN,
        threat_name := none, threat_description := none, file_hash := none,
        detection_method := "signature" } := rfl

/-- C7 as amended: a file whose reads fail yields a CLEAN `ScanResult`
(with no hash and no description) rather than raising, and the remaining
files of the directory scan are all still scanned: the per-file results
before and after the unreadable file are produced unchanged. -/
theorem scan_survives_unreadable_file
    (db : SignatureDatabase) (rs : Bytes → Bytes → Bool)
    (a : String → Bytes → HeurResult)
    (pre post : List (String × Option String × Option Bytes)) (p : String) :
    scanDirectory db rs a (pre ++ (p, none, none) :: post) =
      scanDirectory db rs a pre ++
        cleanResult p none :: scanDirectory db rs a post := by
  simp only [scanDirectory, List.map_append, List.map_cons]
  rfl

theorem quarantineFile_success
    (qdir : String) (wk : String → Bool) (hashFn : Bytes → String)
    (itemId dateFolder nowIso : String) (st : QState) (path : String)
    (data : Bytes) (scanRes : Option ScanResult)
    (hread : fsRead st.fs path = some data)
    (hwq : wk (qpathOf qdir dateFolder itemId) = true) :
    quarantineFile qdir wk hashFn itemId dateFolder nowIso st path scanRes =
      (some (quarantineItemOf hashFn itemId (qpathOf qdir dateFolder itemId)
              nowIso path data scanRes),
       { fs := fsRemove (fsWrite st.fs (qpathOf qdir dateFolder itemId)
                 (magicBytes ++ xorWithKey 0 data)) path,
         items := dinsert st.items itemId
           (quarantineItemOf hashFn itemId (qpathOf qdir dateFolder itemId)
             nowIso path data scanRes),
         journal := (dinsert st.items itemId
           (quarantineItemOf hashFn itemId (qpathOf qdir dateFolder itemId)
             nowIso path data scanRes)).map (fun p => p.2) }) := by
  simp [quarantineFile, encryptFile, hread, hwq]

theorem restoreFile_success (wk : String → Bool) (st : QState) (item_id : String)
    (restore_path : Option String) (item : QuarantinedItem) (blob : Bytes)
    (hfind : dfind st.items item_id = some item)
    (hblob : fsRead st.fs item.quarantine_path = some blob)
    (hmagic : listStartsWith magicBytes blob = true)
    (hwrite : wk (restore_path.getD item.original_path) = true) :
    restoreFile wk st item_id restore_path =
      (true, { fs := fsRemove (fsWrite st.fs (restore_path.getD item.original_path)
                 (xorWithKey 0 (blob.drop 9))) item.quarantine_path,
               items := dremove st.items item_id,
               journal := (dremove st.items item_id).map (fun p => p.2) }) := by
  simp [restoreFile, hfind, hblob, hmagic, hwrite]

/-- C5: when encrypting into the quarantine blob fails, `quarantine_file`
returns no item and the state — file system (so the original file), the
in-memory item map and the journal — is exactly unchanged. -/
theorem quarantine_encrypt_failure_no_side_effects
    (qdir : String) (wk : String → Bool) (hashFn : Bytes → String)
    (itemId dateFolder nowIso : String) (st : QState) (path : String)
    (data : Bytes) (scanRes : Option ScanResult)
    (hread : fsRead st.fs path = some data)
    (hwfail : wk (qpathOf qdir dateFolder itemId) = false) :
    quarantineFile qdir wk hashFn itemId dateFolder nowIso st path scanRes =
      (none, st) := by
  simp [quarantineFile, encryptFile, hread, hwfail]

/-- Witness for C5: a concrete one-file file system with an unwritable
quarantine directory is left untouched. -/
theorem quarantine_encrypt_failure_no_side_effects_witness :
    fsRead (fun p => if p = "C:/evil.exe" then some [1, 2, 3] else none)
      "C:/evil.exe" = some [1, 2, 3] ∧
    quarantineFile "Q" (fun _ => false) (fun _ => "h") "id1" "2024-01"
      "2024-01-01T00:00:00"
      ⟨fun p => if p = "C:/evil.exe" then some [1, 2, 3] else none, [], []⟩
      "C:/evil.exe" none =
      (none, ⟨fun p => if p = "C:/evil.exe" then some [1, 2, 3] else none, [], []⟩) :=
  ⟨by decide,
   quarantine_encrypt_failure_no_side_effects "Q" (fun _ => false) (fun _ => "h")
     "id1" "2024-01" "2024-01-01T00:00:00"
     ⟨fun p => if p = "C:/evil.exe" then some [1, 2, 3] else none, [], []⟩
     "C:/evil.exe" [1, 2, 3] none (by decide) rfl⟩

/-- C9: `delete_permanently` on an id absent from the store returns `False`
and changes nothing (and raises nothing — the embedding is total), and
`stop()` on a monitor whose status is DISABLED returns immediately leaving
the state, including the event log, untouched. -/
theorem delete_missing_and_stop_disabled_noop
    (st : QState) (item_id : String) (pst : ProtState)
    (h1 : dfind st.items item_id = none)
    (h2 : pst.status = ProtectionStatus.DISABLED) :
    deletePermanently st item_id = (false, st) ∧ stopProtection pst = pst := by
  constructor
  · simp [deletePermanently, h1]
  · simp [stopProtection, h2]

/-- Witness for C9 at an empty quarantine store and a disabled monitor. -/
theorem delete_missing_and_stop_disabled_noop_witness :
    dfind (⟨fun _ => none, [], []⟩ : QState).items "ghost" = none ∧
    deletePermanently ⟨fun _ => none, [], []⟩ "ghost" =
      (false, ⟨fun _ => none, [], []⟩) ∧
    stopProtection ⟨ProtectionStatus.DISABLED, ["C:/watch"], []⟩ =
      ⟨ProtectionStatus.DISABLED, ["C:/watch"], []⟩ :=
  ⟨by decide,
   (delete_missing_and_stop_disabled_noop ⟨fun _ => none, [], []⟩ "ghost"
      ⟨ProtectionStatus.DISABLED, ["C:/watch"], []⟩ (by decide) rfl).1,
   (delete_missing_and_stop_disabled_noop ⟨fun _ => none, [], []⟩ "ghost"
      ⟨ProtectionStatus.DISABLED, ["C:/watch"], []⟩ (by decide) rfl).2⟩

/-- C10: when the quarantine blob exists but does not begin with the 9-byte
magic `b'SENTRY_Q1'`, `restore_file` returns `False` and the whole state is
unchanged: nothing is written at the destination, and the blob and the
journal record are kept.  A record is purged on a failed restore only in
the other branch, where the blob is entirely missing. -/
theorem restore_bad_magic_preserves_state
    (wk : String → Bool) (st : QState) (item_id : String)
    (restore_path : Option String) (item : QuarantinedItem)
    (hfind : dfind st.items item_id = some item) :
    (∀ blob, fsRead st.fs item.quarantine_path = some blob →
       listStartsWith magicBytes blob = false →
       restoreFile wk st item_id restore_path = (false, st)) ∧
    (fsRead st.fs item.quarantine_path = none →
       restoreFile wk st item_id restore_path =
         (false, ⟨st.fs, dremove st.items item_id,
                  (dremove st.items item_id).map (fun p => p.2)⟩)) := by
  constructor
  · intro blob hblob hmagic
    simp [restoreFile, hfind, hblob, hmagic]
  · intro hnone
    simp [restoreFile, hfind, hnone]

/-- Witness for C10: a blob starting with garbage instead of the magic
header is left in place with its record; a missing blob purges the
record. -/
theorem restore_bad_magic_preserves_state_witness :
    dfind [("x1", sampleItem)] "x1" = some sampleItem ∧
    listStartsWith magicBytes [0, 1, 2] = false ∧
    restoreFile (fun _ => true)
      ⟨fun p => if p = "Q/x1.quarantine" then some [0, 1, 2] else none,
       [("x1", sampleItem)], [sampleItem]⟩ "x1" none =
      (false,
       ⟨fun p => if p = "Q/x1.quarantine" then some [0, 1, 2] else none,
        [("x1", sampleItem)], [sampleItem]⟩) :=
  ⟨by decide, by decide,
   (restore_bad_magic_preserves_state (fun _ => true)
      ⟨fun p => if p = "Q/x1.quarantine" then some [0, 1, 2] else none,
       [("x1", sampleItem)], [sampleItem]⟩ "x1" none sampleItem (by decide)).1
     [0, 1, 2] (by decide) (by decide)⟩

/-- C4 counterexample: `_load_database` keeps a journal entry whose
encrypted blob does not exist anywhere (here the file system is empty),
and rewrites nothing: the claim that such entries are dropped during load
is false. -/
theorem journal_load_keeps_orphan :
    loadDatabase [sampleItem] = [("x1", sampleItem)] ∧
    sampleItem.quarantine_path = "Q/x1.quarantine" ∧
    fsRead (fun _ => none) "Q/x1.quarantine" = none :=
  ⟨by decide, rfl, rfl⟩

/-- C4 as amended: loading the journal consults only the journal document —
every entry (with the later-entries-win dict semantics on duplicate ids) is
kept regardless of whether its blob exists, and an orphaned entry is
dropped, with the journal rewritten, only when `restore_file` later touches
it and finds the blob missing. -/
theorem journal_load_no_blob_validation :
    (∀ pre (it : QuarantinedItem) post,
       (∀ it2 ∈ post, it2.id ≠ it.id) →
       dfind (loadDatabase (pre ++ it :: post)) it.id = some it) ∧
    (∀ (wk : String → Bool) (st : QState) (item_id : String)
       (rp : Option String) (item : QuarantinedItem),
       dfind st.items item_id = some item →
       fsRead st.fs item.quarantine_path = none →
       restoreFile wk st item_id rp =
         (false, ⟨st.fs, dremove st.items item_id,
                  (dremove st.items item_id).map (fun p => p.2)⟩)) := by
  constructor
  · intro pre it post hpost
    unfold loadDatabase
    rw [List.foldl_append, List.foldl_cons]
    rw [loadDatabase_foldl_notmem _ post it.id hpost]
    exact dfind_dinsert_self _ it.id it
  · intro wk st item_id rp item hfind hnone
    simp [restoreFile, hfind, hnone]

/-- Witness for C4's amended statement: a one-entry journal with a missing
blob is fully loaded, and restoring that entry purges it. -/
theorem journal_load_no_blob_validation_witness :
    dfind (loadDatabase [sampleItem]) "x1" = some sampleItem ∧
    restoreFile (fun _ => true)
      ⟨fun _ => none, loadDatabase [sampleItem], [sampleItem]⟩ "x1" none =
      (false, ⟨fun _ => none, [], []⟩) := by
  have h1 := journal_load_no_blob_validation.1 [] sampleItem [] (by simp)
  refine ⟨h1, ?_⟩
  have h2 := journal_load_no_blob_validation.2 (fun _ => true)
    ⟨fun _ => none, loadDatabase [sampleItem], [sampleItem]⟩ "x1" none
    sampleItem (by decide) rfl
  rw [h2]
  rfl

/-- C3: quarantining an existing readable file and then restoring the
returned item's id with no override destination writes the byte-identical
original content back at the original path, removes the encrypted blob,
and removes the item from the item map (`get_all_items`) and from the
journal.  The hypotheses say: the store's key/id bookkeeping is consistent,
the file is readable, the blob path is distinct from the source path, and
both the blob and the restore destination are writable. -/
theorem quarantine_restore_roundtrip
    (qdir : String) (wk : String → Bool) (hashFn : Bytes → String)
    (itemId dateFolder nowIso : String) (st : QState) (path : String)
    (data : Bytes) (scanRes : Option ScanResult)
    (hwf : ∀ p ∈ st.items, p.2.id = p.1)
    (hread : fsRead st.fs path = some data)
    (hqne : qpathOf qdir dateFolder itemId ≠ path)
    (hwq : wk (qpathOf qdir dateFolder itemId) = true)
    (hwp : wk path = true) :
    ∃ (item : QuarantinedItem) (st1 st2 : QState),
      quarantineFile qdir wk hashFn itemId dateFolder nowIso st path scanRes =
        (some item, st1) ∧
      item.id = itemId ∧
      item.original_path = path ∧
      item.file_hash = hashFn data ∧
      restoreFile wk st1 itemId none = (true, st2) ∧
      fsRead st2.fs path = some data ∧
      fsRead st2.fs item.quarantine_path = none ∧
      dfind st2.items itemId = none ∧
      (∀ it ∈ getAllItems st2, it.id ≠ itemId) ∧
      (∀ it ∈ st2.journal, it.id ≠ itemId) := by
  have hdrop : (magicBytes ++ xorWithKey 0 data).drop 9 = xorWithKey 0 data := by
    rw [← magicBytes_length, List.drop_left]
  set q := qpathOf qdir dateFolder itemId with hqdef
  set I := quarantineItemOf hashFn itemId q nowIso path data scanRes with hIdef
  set blob := magicBytes ++ xorWithKey 0 data with hblobdef
  set fs1 := fsRemove (fsWrite st.fs q blob) path with hfs1def
  set items1 := dinsert st.items itemId I with hitems1def
  set items2 := dremove items1 itemId with hitems2def
  refine ⟨I, ⟨fs1, items1, items1.map (fun p => p.2)⟩,
    ⟨fsRemove (fsWrite fs1 path (xorWithKey 0 (blob.drop 9))) q, items2,
     items2.map (fun p => p.2)⟩,
    quarantineFile_success qdir wk hashFn itemId dateFolder nowIso st path data
      scanRes hread hwq,
    rfl, rfl, rfl, ?_, ?_, ?_, ?_, ?_, ?_⟩
  · exact restoreFile_success wk ⟨fs1, items1, items1.map (fun p => p.2)⟩ itemId
      none I blob (dfind_dinsert_self st.items itemId I)
      (by rw [hfs1def]
          show fsRead (fsRemove (fsWrite st.fs q blob) path) q = some blob
          simp [fsRead, fsRemove, fsWrite, hqne])
      (by rw [hblobdef]
          exact listStartsWith_append _ _)
      hwp
  · show fsRead (fsRemove (fsWrite fs1 path (xorWithKey 0 (blob.drop 9))) q) path =
      some data
    rw [hblobdef, hdrop]
    simp [fsRead, fsRemove, fsWrite, Ne.symm hqne, xorWithKey_involution]
  · show fsRead (fsRemove (fsWrite fs1 path (xorWithKey 0 (blob.drop 9))) q)
      I.quarantine_path = none
    show fsRead (fsRemove (fsWrite fs1 path (xorWithKey 0 (blob.drop 9))) q) q = none
    simp [fsRead, fsRemove]
  · exact dfind_dremove_self items1 itemId
  · intro it hit
    simp only [getAllItems, List.mem_map] at hit
    obtain ⟨p, hp, rfl⟩ := hit
    rw [hitems2def] at hp
    obtain ⟨hpmem, hpk⟩ := mem_dremove _ _ _ hp
    rw [hitems1def] at hpmem
    rcases mem_dinsert _ _ _ _ hpmem with heq | hmem
    · rw [heq] at hpk
      exact absurd rfl hpk
    · rw [hwf p hmem]
      exact hpk
  · intro it hit
    simp only [List.mem_map] at hit
    obtain ⟨p, hp, rfl⟩ := hit
    rw [hitems2def] at hp
    obtain ⟨hpmem, hpk⟩ := mem_dremove _ _ _ hp
    rw [hitems1def] at hpmem
    rcases mem_dinsert _ _ _ _ hpmem with heq | hmem
    · rw [heq] at hpk
      exact absurd rfl hpk
    · rw [hwf p hmem]
      exact hpk

/-- Witness for C3: a one-file store round-trips `[1, 2, 3]` through
quarantine and restore. -/
theorem quarantine_restore_roundtrip_witness :
    fsRead (fun p => if p = "orig.bin" then some [1, 2, 3] else none)
      "orig.bin" = some [1, 2, 3] ∧
    qpathOf "Q" "2024-01" "id1" ≠ "orig.bin" ∧
    (∃ (item : QuarantinedItem) (st1 st2 : QState),
      quarantineFile "Q" (fun _ => true) (fun _ => "h") "id1" "2024-01" "T0"
        ⟨fun p => if p = "orig.bin" then some [1, 2, 3] else none, [], []⟩
        "orig.bin" none = (some item, st1) ∧
      item.id = "id1" ∧
      item.original_path = "orig.bin" ∧
      item.file_hash = "h" ∧
      restoreFile (fun _ => true) st1 "id1" none = (true, st2) ∧
      fsRead st2.fs "orig.bin" = some [1, 2, 3] ∧
      fsRead st2.fs item.quarantine_path = none ∧
      dfind st2.items "id1" = none ∧
      (∀ it ∈ getAllItems st2, it.id ≠ "id1") ∧
      (∀ it ∈ st2.journal, it.id ≠ "id1")) :=
  ⟨by decide, by decide,
   quarantine_restore_roundtrip "Q" (fun _ => true) (fun _ => "h") "id1"
     "2024-01" "T0"
     ⟨fun p => if p = "orig.bin" then some [1, 2, 3] else none, [], []⟩
     "orig.bin" [1, 2, 3] none (by simp) (by decide) (by decide) rfl rfl⟩

end Sentry
